import Mathlib

/-!
Verification of the task registry and execution engine of
`src/maintenance.py` (linux-maintenance): JSON task loading, schema
validation, sequential batch execution with halt-on-failure, and output
summarization.  Each Python function is shallowly embedded as an
executable Lean definition; external effects (files, processes,
desktop notifications, logs) are made explicit as parameters or as
returned event lists.

String primitives (`strip`, `splitlines`, `lower`, substring test) are
defined over the character list of a `String` so that all definitions
evaluate by kernel reduction; they model Python's behaviour on the
ASCII, `\n`/`\r\n`-terminated text these commands produce.
-/

/-! ## Python string primitives -/

/-- Python `str.strip()`: remove leading and trailing whitespace
(space, tab, carriage return, newline). -/
def pyStrip (s : String) : String :=
  String.mk (((s.data.dropWhile Char.isWhitespace).reverse.dropWhile
    Char.isWhitespace).reverse)

/-- Helper for `pySplitlines`: walk the characters accumulating the
current line (reversed); a line ends at `\n`, `\r\n` or `\r`.  A final
line with no terminator is emitted; input ending in a terminator emits
no trailing empty line, matching Python `str.splitlines()`. -/
def splitlinesAux : List Char → List Char → List String
  | [], [] => []
  | [], acc => [String.mk acc.reverse]
  | '\x0d' :: '\x0a' :: rest, acc => String.mk acc.reverse :: splitlinesAux rest []
  | '\x0a' :: rest, acc => String.mk acc.reverse :: splitlinesAux rest []
  | '\x0d' :: rest, acc => String.mk acc.reverse :: splitlinesAux rest []
  | c :: rest, acc => splitlinesAux rest (c :: acc)

/-- Python `str.splitlines()` (for the line boundaries `\n`, `\r\n`,
`\r`): `""` gives `[]`, a trailing terminator adds no empty line. -/
def pySplitlines (s : String) : List String :=
  splitlinesAux s.data []

/-- ASCII lowercasing of one character, as Python `str.lower()` acts on
the ASCII text involved here. -/
def pyLowerChar (c : Char) : Char :=
  if 'A' ≤ c ∧ c ≤ 'Z' then Char.ofNat (c.toNat + 32) else c

/-- Python `str.lower()` (ASCII). -/
def pyLower (s : String) : String :=
  String.mk (s.data.map pyLowerChar)

/-- Whether `needle` occurs as a contiguous run inside `hay`. -/
def containsSub (hay needle : List Char) : Bool :=
  match hay with
  | [] => needle.isEmpty
  | _ :: t => needle.isPrefixOf hay || containsSub t needle

/-- Python `pat in s` on strings: substring containment. -/
def strContains (s pat : String) : Bool :=
  containsSub s.data pat.data

/-! ## Task records and the validator -/

/-- A Python/JSON value as it appears in a task record: the shapes
`validate_task` distinguishes (strings, ints, bools, lists, None).
`isinstance` checks in the source map to constructor matches here;
Python treats `bool` as distinct from `str` and `list` in every check
the validator performs. -/
inductive PyVal where
  | str (s : String)
  | int (n : Int)
  | bool (b : Bool)
  | list (xs : List PyVal)
  | none
deriving Repr

/-- `type(v).__name__` for the values `PyVal` models, as used in the
validator's error message for a non-string command element. -/
def PyVal.typeName : PyVal → String
  | PyVal.str _ => "str"
  | PyVal.int _ => "int"
  | PyVal.bool _ => "bool"
  | PyVal.list _ => "list"
  | PyVal.none => "NoneType"

/-- A raw task record: a JSON object (Python dict) modelled as an
association list of key/value pairs; the first binding for a key wins
(a dict has at most one binding per key). -/
def Record : Type := List (String × PyVal)

/-- Dict lookup: `task[k]` / `k in task` / `task.get(k)`. -/
def Record.get (r : Record) (k : String) : Option PyVal :=
  match r with
  | [] => Option.none
  | (k2, v) :: rest => if k2 = k then some v else Record.get rest k

/-- First non-string element of a command list with its index: the loop
`for idx, item in enumerate(task['command'])` returning at the first
`not isinstance(item, str)`. -/
def firstNonStr : List PyVal → Nat → Option (Nat × PyVal)
  | [], _ => Option.none
  | PyVal.str _ :: rest, i => firstNonStr rest (i + 1)
  | v :: _, i => some (i, v)

/-- `isinstance(v, str) and v.strip()`: a string that is non-empty
after trimming whitespace. -/
def isNonEmptyStr (v : PyVal) : Bool :=
  match v with
  | PyVal.str s => !(pyStrip s).data.isEmpty
  | _ => false

/-- Embedding of `validate_task` (maintenance.py lines 227-267): checks
a raw record in source order, short-circuiting at the first failure,
and returns the `(is_valid, error_message)` pair with the source's
exact message strings. -/
def validate_task (task : Record) : Bool × String :=
  if (Record.get task "name").isNone then
    (false, "Missing required field: name")
  else if (Record.get task "description").isNone then
    (false, "Missing required field: description")
  else if (Record.get task "command").isNone then
    (false, "Missing required field: command")
  else if !(isNonEmptyStr ((Record.get task "name").getD PyVal.none)) then
    (false, "Field 'name' must be a non-empty string")
  else if !(isNonEmptyStr ((Record.get task "description").getD PyVal.none)) then
    (false, "Field 'description' must be a non-empty string")
  else
    match (Record.get task "command").getD PyVal.none with
    | PyVal.list cmd =>
      if cmd.length = 0 then
        (false, "Field 'command' must be a non-empty list")
      else
        match firstNonStr cmd 0 with
        | some (idx, item) =>
          (false, "Command item at index " ++ toString idx ++
            " must be a string, got " ++ PyVal.typeName item)
        | Option.none =>
          match Record.get task "auto_safe" with
          | some (PyVal.bool _) | Option.none =>
            match Record.get task "requires_sudo" with
            | some (PyVal.bool _) | Option.none =>
              match Record.get task "risk_level" with
              | some (PyVal.str lv) =>
                if lv = "low" ∨ lv = "medium" ∨ lv = "high" then
                  validateCheckCommand task
                else
                  (false, "Field 'risk_level' must be one of ['low', 'medium', 'high']")
              | some _ =>
                (false, "Field 'risk_level' must be one of ['low', 'medium', 'high']")
              | Option.none => validateCheckCommand task
            | some _ => (false, "Field 'requires_sudo' must be a boolean")
          | some _ => (false, "Field 'auto_safe' must be a boolean")
    | _ => (false, "Field 'command' must be a non-empty list")
where
  /-- The final `check_command` check and the accepting return. -/
  validateCheckCommand (task : Record) : Bool × String :=
    match Record.get task "check_command" with
    | some (PyVal.list _) | Option.none => (true, "")
    | some _ => (false, "Field 'check_command' must be a list")

/-! ## Output summarizers -/

/-- Whether a line triggers the update-family match: it contains
"packages can be upgraded" or "all packages are up to date"
case-insensitively. -/
def isUpdateSummaryLine (line : String) : Bool :=
  strContains (pyLower line) "packages can be upgraded" ||
  strContains (pyLower line) "all packages are up to date"

/-- Embedding of `summarize_update_output` (lines 113-121): first line
matching the update-family phrases, stripped; otherwise the last line
stripped, or "-" when there are no lines. -/
def summarize_update_output (output : String) : String :=
  let lines := pySplitlines output
  match lines.find? isUpdateSummaryLine with
  | some line => pyStrip line
  | Option.none =>
    match lines.getLast? with
    | some l => pyStrip l
    | Option.none => "-"

/-- Whether a line triggers the upgrade-family match: it contains both
"upgraded," and "newly installed", or contains
"no packages will be upgraded" (case-insensitively). -/
def isUpgradeSummaryLine (line : String) : Bool :=
  (strContains (pyLower line) "upgraded," && strContains (pyLower line) "newly installed") ||
  strContains (pyLower line) "no packages will be upgraded"

/-- Embedding of `summarize_upgrade_output` (lines 124-134). -/
def summarize_upgrade_output (output : String) : String :=
  let lines := pySplitlines output
  match lines.find? isUpgradeSummaryLine with
  | some line => pyStrip line
  | Option.none =>
    match lines.getLast? with
    | some l => pyStrip l
    | Option.none => "-"

/-- Embedding of `summarize_remove_output` (lines 137-140): all lines
containing "removed" (case-insensitively) joined by newlines, or "-". -/
def summarize_remove_output (output : String) : String :=
  let relevant := (pySplitlines output).filter
    (fun line => strContains (pyLower line) "removed")
  if relevant.isEmpty then "-" else String.intercalate "\x0a" relevant

/-- The summarizer dispatch written inline both in `run_all_tasks`
(lines 348-355) and in `main` (lines 464-472): case-insensitive
substring tests on the task name, "update" first, then "upgrade", then
"remove", else the raw output or "-" when it is empty. -/
def summarize_for_task (task_name output : String) : String :=
  if strContains (pyLower task_name) "update" then
    summarize_update_output output
  else if strContains (pyLower task_name) "upgrade" then
    summarize_upgrade_output output
  else if strContains (pyLower task_name) "remove" then
    summarize_remove_output output
  else if output.data.isEmpty then "-" else output

/-! ## Command executor -/

/-- The outcome of the underlying `subprocess.run` call, made explicit:
the process either started and exited with a code and two streams, or
the executable was absent (`FileNotFoundError`).  With `check=True` a
non-zero exit surfaces as `CalledProcessError` carrying the same
code and streams. -/
inductive ProcResult where
  | exited (code : Int) (stdout stderr : String)
  | notFound
deriving Repr

/-- Embedding of `run_command` (lines 270-298): run `cmd`, whose launch
behaviour is `res`, and produce the `(exit_code, stdout, stderr)`
triple — streams stripped on every path, `(127, "", "Command not
found: <argv0>")` when the executable is missing.  Total: no outcome
escapes as an unhandled fault. -/
def run_command (cmd : List String) (res : ProcResult) : Int × String × String :=
  match res with
  | ProcResult.exited code out err =>
    if code = 0 then (0, pyStrip out, pyStrip err)
    else (code, pyStrip out, pyStrip err)
  | ProcResult.notFound => (127, "", "Command not found: " ++ cmd.headD "")

/-! ## Task loader -/

/-- A task source file as `load_tasks_from_json` observes it: missing
(`FileNotFoundError`), unparseable (`json.JSONDecodeError`), or parsed
to an object whose optional `tasks` field holds a list of record
objects (`data.get('tasks', [])` yields `[]` when the field is
absent). -/
inductive JsonSource where
  | missing
  | malformed
  | parsed (tasks? : Option (List Record))

/-- One log line the loader emits, with the data the claims are about. -/
inductive LoadEvent where
  | warnMissing
  | errMalformed
  | errInvalidTask (idx : Nat) (msg : String)
  | infoLoaded (valid total : Nat)
deriving Repr

/-- Whether a load event is the rejection of one record. -/
def LoadEvent.isRejection : LoadEvent → Bool
  | LoadEvent.errInvalidTask _ _ => true
  | _ => false

/-- The validation loop of `load_tasks_from_json`: keep the records
`validate_task` accepts, in order, and log each rejection with its
index and reason. -/
def validateAll : List Record → Nat → List Record × List LoadEvent
  | [], _ => ([], [])
  | t :: rest, idx =>
    if (validate_task t).1 then
      (t :: (validateAll rest (idx + 1)).1, (validateAll rest (idx + 1)).2)
    else
      ((validateAll rest (idx + 1)).1,
       LoadEvent.errInvalidTask idx (validate_task t).2 ::
         (validateAll rest (idx + 1)).2)

/-- Embedding of `load_tasks_from_json` (lines 152-179): a missing file
yields `[]` with a warning, a malformed file `[]` with an error, and a
parsed file its valid records in order plus per-record rejections and
the final count summary.  Total on every source shape: the Python
`except` clauses mean the function never raises. -/
def load_tasks_from_json (src : JsonSource) : List Record × List LoadEvent :=
  match src with
  | JsonSource.missing => ([], [LoadEvent.warnMissing])
  | JsonSource.malformed => ([], [LoadEvent.errMalformed])
  | JsonSource.parsed tasks? =>
    let raw := tasks?.getD []
    ((validateAll raw 0).1,
     (validateAll raw 0).2 ++
       [LoadEvent.infoLoaded (validateAll raw 0).1.length raw.length])

/-- The environment `load_all_tasks` reads: the three source files and
what `detect_package_manager()` / `pkg_tasks_file.exists()` report. -/
structure TasksEnv where
  base : JsonSource
  pkg_manager : Option String
  pkg_file_exists : Bool
  pkg_source : JsonSource
  optional : JsonSource

/-- Embedding of `load_all_tasks` (lines 182-202): base tasks, then the
package-manager-specific tasks (only when a manager was detected and
that file exists), then the optional tasks, concatenated in that
order. -/
def load_all_tasks (env : TasksEnv) : List Record :=
  let base_tasks := (load_tasks_from_json env.base).1
  let pkg_tasks :=
    match env.pkg_manager with
    | some _ =>
      if env.pkg_file_exists then (load_tasks_from_json env.pkg_source).1 else []
    | Option.none => []
  let optional_tasks := (load_tasks_from_json env.optional).1
  base_tasks ++ pkg_tasks ++ optional_tasks

/-! ## Execution orchestrator -/

/-- Notification urgency, mirroring `desktop_notifier.Urgency`. -/
inductive Urgency where
  | Normal
  | Critical
deriving Repr, DecidableEq

/-- One `send_notification(title, message, urgency)` call. -/
structure Notif where
  title : String
  message : String
  urgency : Urgency
deriving Repr, DecidableEq

/-- A task as `run_all_tasks` reads it from a validated record:
`task["name"]`, `task["command"]`, `task.get("auto_safe", False)`,
`task.get("requires_sudo", False)`. -/
structure RTask where
  name : String
  command : List String
  auto_safe : Bool
  requires_sudo : Bool
deriving Repr, DecidableEq

/-- The dict appended to `results_list` for one executed task: the
`exit_code` entry holds the rendered check mark, `error` is cleared on
success. -/
structure ResultRecord where
  command : String
  exit_mark : String
  output : String
  error : String
deriving Repr, DecidableEq

/-- The rendered `exit_code` cell: check mark on 0, cross otherwise. -/
def exitMark (code : Int) : String :=
  if code = 0 then "[bold green]✓[/bold green]" else "[bold red]✗[/bold red]"

/-- The failure notification sent when a task exits non-zero. -/
def failNotif (task_name : String) : Notif :=
  { title := "Maintenance Error",
    message := "Task '" ++ task_name ++ "' encountered an error.",
    urgency := Urgency.Critical }

/-- The batch start notification. -/
def startNotif (n : Nat) : Notif :=
  { title := "Maintenance Started",
    message := "Running " ++ toString n ++ " automated tasks",
    urgency := Urgency.Normal }

/-- The batch end notification. -/
def endNotif (n : Nat) : Notif :=
  { title := "Maintenance Complete",
    message := toString n ++ " tasks processed.",
    urgency := Urgency.Normal }

/-- The loop body of `run_all_tasks` (lines 328-383) over the auto-safe
tasks: a task whose `requires_sudo` precondition fails is skipped with
`continue`; otherwise its command runs (`exec` gives each launch's
outcome), the output is summarized, a result record is appended, and
on a non-zero exit a failure notification is emitted and the loop
`break`s.  Returns the appended result records, the notifications the
loop itself sent, and the names of the tasks actually executed, each
in order. -/
def runTasks (euid : Nat) (exec : List String → ProcResult) :
    List RTask → List ResultRecord × List Notif × List String
  | [] => ([], [], [])
  | task :: rest =>
    if task.requires_sudo && !(euid = 0) then
      runTasks euid exec rest
    else
      let r := run_command task.command (exec task.command)
      let record : ResultRecord :=
        { command := task.name,
          exit_mark := exitMark r.1,
          output := summarize_for_task task.name r.2.1,
          error := if r.1 = 0 then "" else r.2.2 }
      if r.1 = 0 then
        (record :: (runTasks euid exec rest).1,
         (runTasks euid exec rest).2.1,
         task.name :: (runTasks euid exec rest).2.2)
      else
        ([record], [failNotif task.name], [task.name])

/-- Everything observable one `run_all_tasks()` call does: the result
records it accumulates, the notifications it sends, and the names of
the tasks it actually executed, each in order. -/
structure BatchRun where
  results : List ResultRecord
  notifications : List Notif
  executed : List String
deriving Repr, DecidableEq

/-- Embedding of `run_all_tasks` (lines 301-400), parameterized by the
loaded catalog `all_tasks`, the effective uid, and each command
launch's outcome.  An empty catalog or an empty auto-safe subset
returns early, before any notification; otherwise the start
notification, the loop, and the end notification happen in order. -/
def run_all_tasks (all_tasks : List RTask) (euid : Nat)
    (exec : List String → ProcResult) : BatchRun :=
  if all_tasks.isEmpty then
    { results := [], notifications := [], executed := [] }
  else
    let auto_tasks := all_tasks.filter (fun t => t.auto_safe)
    if auto_tasks.isEmpty then
      { results := [], notifications := [], executed := [] }
    else
      { results := (runTasks euid exec auto_tasks).1,
        notifications := startNotif auto_tasks.length ::
          (runTasks euid exec auto_tasks).2.1 ++
          [endNotif (runTasks euid exec auto_tasks).1.length],
        executed := (runTasks euid exec auto_tasks).2.2 }

/-! ## Concrete fixtures used by witnesses -/

/-- An auto-safe update task that will succeed. -/
def fixUpdate : RTask :=
  { name := "Update package lists", command := ["apt", "update"],
    auto_safe := true, requires_sudo := false }

/-- An auto-safe task whose command will fail. -/
def fixFail : RTask :=
  { name := "Broken task", command := ["bad"],
    auto_safe := true, requires_sudo := false }

/-- An auto-safe task standing after the failing one. -/
def fixThird : RTask :=
  { name := "Third task", command := ["third"],
    auto_safe := true, requires_sudo := false }

/-- An auto-safe task that requires elevated privilege. -/
def fixSudo : RTask :=
  { name := "Needs root", command := ["root-cmd"],
    auto_safe := true, requires_sudo := true }

/-- A launch oracle: the update command succeeds with a known summary
line, `bad` exits 1, everything else succeeds quietly. -/
def fixExec : List String → ProcResult := fun cmd =>
  if cmd = ["apt", "update"] then
    ProcResult.exited 0 "3 packages can be upgraded." ""
  else if cmd = ["bad"] then ProcResult.exited 1 "boom" "exploded"
  else ProcResult.exited 0 "ok" ""

/-- A valid task record with the given name. -/
def recOK (nm : String) : Record :=
  [("name", PyVal.str nm), ("description", PyVal.str "d"),
   ("command", PyVal.list [PyVal.str "true"])]

/-- An invalid task record: `description` is missing. -/
def recBad : Record :=
  [("name", PyVal.str "x")]

/-! ## C3: command executor contract -/

/-- C3: for every non-empty argv the executor returns the
`(exit_code, stdout, stderr)` triple with both streams stripped: exit 0
gives `(0, out, err)`, a non-zero exit `n` gives `(n, out, err)` as a
normal return, and a missing executable gives exactly
`(127, "", "Command not found: <argv0>")`; the embedding is a total
function, so no case escapes as an unhandled fault. -/
theorem run_command_contract (c : String) (rest : List String)
    (code : Int) (out err : String) (hn : code ≠ 0) :
    run_command (c :: rest) (ProcResult.exited 0 out err) =
      (0, pyStrip out, pyStrip err) ∧
    run_command (c :: rest) (ProcResult.exited code out err) =
      (code, pyStrip out, pyStrip err) ∧
    run_command (c :: rest) ProcResult.notFound =
      (127, "", "Command not found: " ++ c) := by
  refine ⟨rfl, ?_, rfl⟩
  simp [run_command, hn]

/-- Witness for C3 at argv `["this-does-not-exist"]` and exit code 1. -/
theorem run_command_contract_witness :
    run_command ["this-does-not-exist"] (ProcResult.exited 0 "o" "e") =
      (0, pyStrip "o", pyStrip "e") ∧
    run_command ["this-does-not-exist"] (ProcResult.exited 1 "o" "e") =
      (1, pyStrip "o", pyStrip "e") ∧
    run_command ["this-does-not-exist"] ProcResult.notFound =
      (127, "", "Command not found: " ++ "this-does-not-exist") :=
  run_command_contract "this-does-not-exist" [] 1 "o" "e" (by decide)

/-! ## C4: update-family summarizer (corrected) -/

/-- C4 counterexample: on `"abc\n\n"` no line matches, the last line is
the empty one, and the summarizer returns `""` — not `"abc"`, the last
non-empty line the claim promises. -/
theorem summarize_update_not_last_nonempty :
    summarize_update_output "abc\x0a\x0a" = "" ∧
    summarize_update_output "abc\x0a\x0a" ≠ "abc" := by decide

/-- `find?` on a list split as `pre ++ x :: rest` where every element
of `pre` fails the predicate and `x` satisfies it returns `x`: the
first matching element wins wherever it stands. -/
theorem find?_first_match {α : Type} (p : α → Bool) (pre : List α)
    (x : α) (rest : List α)
    (hpre : ∀ y ∈ pre, p y = false) (hx : p x = true) :
    (pre ++ x :: rest).find? p = some x := by
  induction pre with
  | nil =>
    simpa using List.find?_cons_of_pos rest hx
  | cons a l ih =>
    rw [List.cons_append, List.find?_cons_of_neg]
    · exact ih (fun y hy => hpre y (List.mem_cons_of_mem a hy))
    · simp [hpre a (List.mem_cons_self a l)]

/-- C4 amended: the summarizer returns, trimmed, the FIRST line
matching "packages can be upgraded" or "all packages are up to date"
(case-insensitively), wherever that line stands; when no line matches
it returns the LAST line trimmed — possibly the empty string, not the
last non-empty line — and returns "-" exactly when the input has no
lines; the known phrasing `"3 packages can be upgraded."` comes back
unchanged. -/
theorem summarize_update_amended :
    summarize_update_output "3 packages can be upgraded." =
      "3 packages can be upgraded." ∧
    summarize_update_output "" = "-" ∧
    (∀ s : String, (∀ l ∈ pySplitlines s, isUpdateSummaryLine l = false) →
      summarize_update_output s =
        (((pySplitlines s).getLast?).map pyStrip).getD "-") ∧
    (∀ (s : String) (pre : List String) (l : String) (rest : List String),
      pySplitlines s = pre ++ l :: rest →
      (∀ l2 ∈ pre, isUpdateSummaryLine l2 = false) →
      isUpdateSummaryLine l = true →
      summarize_update_output s = pyStrip l) := by
  refine ⟨by decide, by decide, ?_, ?_⟩
  · intro s h
    have hf : (pySplitlines s).find? isUpdateSummaryLine = Option.none := by
      rw [List.find?_eq_none]
      intro x hx
      simp [h x hx]
    simp only [summarize_update_output]
    rw [hf]
    cases hl : (pySplitlines s).getLast? with
    | none => simp
    | some l => simp
  · intro s pre l rest hs hpre hl
    simp only [summarize_update_output, hs]
    rw [find?_first_match isUpdateSummaryLine pre l rest hpre hl]

/-- Witness for C4's amended claim at `"abc\n\n"` (no line matches) and
at `"x\npackages can be upgraded\ny"` (the first matching line stands
after a non-matching one and before a later line). -/
theorem summarize_update_amended_witness :
    summarize_update_output "abc\x0a\x0a" =
      (((pySplitlines "abc\x0a\x0a").getLast?).map pyStrip).getD "-" ∧
    summarize_update_output "x\x0apackages can be upgraded\x0ay" =
      pyStrip "packages can be upgraded" :=
  ⟨summarize_update_amended.2.2.1 "abc\x0a\x0a" (by decide),
   summarize_update_amended.2.2.2 "x\x0apackages can be upgraded\x0ay"
     ["x"] "packages can be upgraded" ["y"] (by decide) (by decide)
     (by decide)⟩

/-! ## C9: summarizer family selection priority -/

/-- C9: family selection tests the task name case-insensitively for
"update" first, then "upgrade", then "remove", falling back to the
generic summary (raw output, or "-" if empty); when several keywords
occur, the first family in that fixed order wins. -/
theorem summary_family_priority :
    (∀ nm out : String, strContains (pyLower nm) "update" = true →
      summarize_for_task nm out = summarize_update_output out) ∧
    (∀ nm out : String, strContains (pyLower nm) "update" = false →
      strContains (pyLower nm) "upgrade" = true →
      summarize_for_task nm out = summarize_upgrade_output out) ∧
    (∀ nm out : String, strContains (pyLower nm) "update" = false →
      strContains (pyLower nm) "upgrade" = false →
      strContains (pyLower nm) "remove" = true →
      summarize_for_task nm out = summarize_remove_output out) ∧
    (∀ nm out : String, strContains (pyLower nm) "update" = false →
      strContains (pyLower nm) "upgrade" = false →
      strContains (pyLower nm) "remove" = false →
      summarize_for_task nm out =
        if out.data.isEmpty then "-" else out) := by
  refine ⟨?_, ?_, ?_, ?_⟩
  · intro nm out h
    simp [summarize_for_task, h]
  · intro nm out h1 h2
    simp [summarize_for_task, h1, h2]
  · intro nm out h1 h2 h3
    simp [summarize_for_task, h1, h2, h3]
  · intro nm out h1 h2 h3
    simp [summarize_for_task, h1, h2, h3]

/-- Witness for C9: a name containing both "update" and "remove" is
summarized by the update-family rule. -/
theorem summary_family_priority_witness :
    summarize_for_task "Update and remove leftovers" "some output" =
      summarize_update_output "some output" :=
  summary_family_priority.1 "Update and remove leftovers" "some output"
    (by decide)

/-! ## C10: unknown keys are ignored by the validator -/

/-- C10: `validate_task` depends only on the seven known keys — adding
a binding for any other key leaves its verdict unchanged, so a record
whose listed fields pass all the checks is accepted regardless of the
extra fields it carries. -/
theorem validate_ignores_unknown_keys (k : String) (v : PyVal) (t : Record)
    (hk : k ∉ ["name", "description", "command", "auto_safe",
      "requires_sudo", "risk_level", "check_command"]) :
    validate_task ((k, v) :: t) = validate_task t := by
  have k1 : k ≠ "name" := fun h => hk (by rw [h]; decide)
  have k2 : k ≠ "description" := fun h => hk (by rw [h]; decide)
  have k3 : k ≠ "command" := fun h => hk (by rw [h]; decide)
  have k4 : k ≠ "auto_safe" := fun h => hk (by rw [h]; decide)
  have k5 : k ≠ "requires_sudo" := fun h => hk (by rw [h]; decide)
  have k6 : k ≠ "risk_level" := fun h => hk (by rw [h]; decide)
  have k7 : k ≠ "check_command" := fun h => hk (by rw [h]; decide)
  have g : ∀ k2 : String, k ≠ k2 →
      Record.get ((k, v) :: t) k2 = Record.get t k2 := by
    intro k2 hne
    show (if k = k2 then some v else Record.get t k2) = Record.get t k2
    rw [if_neg hne]
  simp only [validate_task, validate_task.validateCheckCommand,
    g "name" k1, g "description" k2, g "command" k3, g "auto_safe" k4,
    g "requires_sudo" k5, g "risk_level" k6, g "check_command" k7]

/-- Witness for C10: a record carrying an unknown `extra` field whose
listed fields pass every check is accepted with `(true, "")`. -/
theorem validate_ignores_unknown_keys_witness :
    validate_task (("extra", PyVal.int 42) :: recOK "Update package lists") =
      (true, "") :=
  (validate_ignores_unknown_keys "extra" (PyVal.int 42)
    (recOK "Update package lists") (by decide)).trans rfl

/-! ## C8: validator check order and short-circuiting -/

/-- C8: the validator's checks run in the specified order, and the
first failing check decides the returned reason: a missing `name` wins
over every later defect, a missing `description` over the checks after
the required keys, a present-but-empty `name` over the content checks,
and a record whose `command` is `["apt", 5]` is rejected with a reason
citing index 1 and the type `int` even though its `risk_level` is also
invalid. -/
theorem validate_checks_in_order :
    (∀ t : Record, Record.get t "name" = Option.none →
      validate_task t = (false, "Missing required field: name")) ∧
    (∀ t : Record, (Record.get t "name").isSome = true →
      Record.get t "description" = Option.none →
      validate_task t = (false, "Missing required field: description")) ∧
    (∀ t : Record, (Record.get t "name").isSome = true →
      (Record.get t "description").isSome = true →
      Record.get t "command" = Option.none →
      validate_task t = (false, "Missing required field: command")) ∧
    (∀ (t : Record) (v : PyVal), Record.get t "name" = some v →
      (Record.get t "description").isSome = true →
      (Record.get t "command").isSome = true →
      isNonEmptyStr v = false →
      validate_task t = (false, "Field 'name' must be a non-empty string")) ∧
    validate_task [("name", PyVal.str "Update"), ("description", PyVal.str "d"),
      ("command", PyVal.list [PyVal.str "apt", PyVal.int 5]),
      ("risk_level", PyVal.str "absurd")] =
      (false, "Command item at index 1 must be a string, got int") := by
  refine ⟨?_, ?_, ?_, ?_, rfl⟩
  · intro t h
    simp [validate_task, h]
  · intro t h1 h2
    obtain ⟨v, hv⟩ := Option.isSome_iff_exists.mp h1
    simp [validate_task, hv, h2]
  · intro t h1 h2 h3
    obtain ⟨v, hv⟩ := Option.isSome_iff_exists.mp h1
    obtain ⟨w, hw⟩ := Option.isSome_iff_exists.mp h2
    simp [validate_task, hv, hw, h3]
  · intro t v hv h2 h3 hne
    obtain ⟨w, hw⟩ := Option.isSome_iff_exists.mp h2
    obtain ⟨c, hc⟩ := Option.isSome_iff_exists.mp h3
    simp [validate_task, hv, hw, hc, hne]

/-- Witness for C8: the short-circuit cases applied at concrete
records. -/
theorem validate_checks_in_order_witness :
    validate_task [("foo", PyVal.int 1)] =
      (false, "Missing required field: name") ∧
    validate_task [("name", PyVal.str "")] =
      (false, "Missing required field: description") ∧
    validate_task [("name", PyVal.str ""), ("description", PyVal.str "")] =
      (false, "Missing required field: command") ∧
    validate_task [("name", PyVal.str " "), ("description", PyVal.str ""),
        ("command", PyVal.int 0)] =
      (false, "Field 'name' must be a non-empty string") :=
  ⟨validate_checks_in_order.1 _ rfl,
   validate_checks_in_order.2.1 _ rfl rfl,
   validate_checks_in_order.2.2.1 _ rfl rfl rfl,
   validate_checks_in_order.2.2.2.1 _ (PyVal.str " ") rfl rfl rfl (by decide)⟩

/-! ## C6: loader resilience -/

/-- The kept records of the validation loop are exactly the records the
validator accepts, in their original order. -/
theorem validateAll_fst (raw : List Record) (idx : Nat) :
    (validateAll raw idx).1 = raw.filter (fun t => (validate_task t).1) := by
  induction raw generalizing idx with
  | nil => rfl
  | cons t rest ih =>
    simp only [validateAll, List.filter_cons]
    cases h : (validate_task t).1 <;> simp [h, ih]

/-- The validation loop logs exactly one rejection per invalid
record. -/
theorem validateAll_rejections (raw : List Record) (idx : Nat) :
    (validateAll raw idx).2.countP LoadEvent.isRejection =
      raw.countP (fun t => !(validate_task t).1) := by
  induction raw generalizing idx with
  | nil => rfl
  | cons t rest ih =>
    simp only [validateAll, List.countP_cons]
    cases h : (validate_task t).1 <;>
      simp [h, ih, LoadEvent.isRejection, List.countP_cons]

/-- C6: `load_tasks_from_json` is total (it never raises): a missing
source yields an empty sequence with a logged warning, a malformed one
an empty sequence with a logged error, an absent `tasks` field an
empty list, and a parsed source contributes exactly its valid records
in original order with one logged rejection per invalid record — in
particular 3 valid and 2 invalid records contribute exactly 3 tasks
and 2 rejections. -/
theorem loader_resilience :
    load_tasks_from_json JsonSource.missing = ([], [LoadEvent.warnMissing]) ∧
    load_tasks_from_json JsonSource.malformed = ([], [LoadEvent.errMalformed]) ∧
    load_tasks_from_json (JsonSource.parsed Option.none) =
      ([], [LoadEvent.infoLoaded 0 0]) ∧
    (∀ raw : List Record,
      (load_tasks_from_json (JsonSource.parsed (some raw))).1 =
        raw.filter (fun t => (validate_task t).1)) ∧
    (∀ raw : List Record,
      (load_tasks_from_json (JsonSource.parsed (some raw))).2.countP
          LoadEvent.isRejection =
        raw.countP (fun t => !(validate_task t).1)) ∧
    (load_tasks_from_json (JsonSource.parsed
        (some [recOK "a", recOK "b", recBad, recOK "c", recBad]))).1 =
      [recOK "a", recOK "b", recOK "c"] ∧
    (load_tasks_from_json (JsonSource.parsed
        (some [recOK "a", recOK "b", recBad, recOK "c", recBad]))).2.countP
        LoadEvent.isRejection = 2 := by
  refine ⟨rfl, rfl, rfl, ?_, ?_, rfl, rfl⟩
  · intro raw
    simp only [load_tasks_from_json, Option.getD_some]
    exact validateAll_fst raw 0
  · intro raw
    simp only [load_tasks_from_json, Option.getD_some, List.countP_append]
    rw [validateAll_rejections raw 0]
    simp [LoadEvent.isRejection]

/-! ## C7: catalog ordering -/

/-- C7: the catalog is the concatenation base ++ manager ++ optional in
that fixed order; the manager source contributes only when a manager
was detected AND its file exists.  With base=[A,B], manager=[C],
optional=[D] (all valid) the catalog is exactly [A,B,C,D]; without a
detected manager, or with the manager file absent, it is [A,B,D]. -/
theorem catalog_order (A B C D : Record) (m : String)
    (hA : (validate_task A).1 = true) (hB : (validate_task B).1 = true)
    (hC : (validate_task C).1 = true) (hD : (validate_task D).1 = true) :
    load_all_tasks
      { base := JsonSource.parsed (some [A, B]), pkg_manager := some m,
        pkg_file_exists := true,
        pkg_source := JsonSource.parsed (some [C]),
        optional := JsonSource.parsed (some [D]) } = [A, B, C, D] ∧
    load_all_tasks
      { base := JsonSource.parsed (some [A, B]), pkg_manager := Option.none,
        pkg_file_exists := true,
        pkg_source := JsonSource.parsed (some [C]),
        optional := JsonSource.parsed (some [D]) } = [A, B, D] ∧
    load_all_tasks
      { base := JsonSource.parsed (some [A, B]), pkg_manager := some m,
        pkg_file_exists := false,
        pkg_source := JsonSource.parsed (some [C]),
        optional := JsonSource.parsed (some [D]) } = [A, B, D] := by
  refine ⟨?_, ?_, ?_⟩ <;>
    simp [load_all_tasks, load_tasks_from_json, validateAll, hA, hB, hC, hD]

/-- Witness for C7 with four concrete valid records and manager
"apt". -/
theorem catalog_order_witness :
    load_all_tasks
      { base := JsonSource.parsed (some [recOK "a", recOK "b"]),
        pkg_manager := some "apt", pkg_file_exists := true,
        pkg_source := JsonSource.parsed (some [recOK "c"]),
        optional := JsonSource.parsed (some [recOK "d"]) } =
      [recOK "a", recOK "b", recOK "c", recOK "d"] :=
  (catalog_order (recOK "a") (recOK "b") (recOK "c") (recOK "d") "apt"
    (by decide) (by decide) (by decide) (by decide)).1

/-! ## C1: batch halts on execution failure -/

/-- C1: in batch mode a non-zero exit appends that task's result
record, emits the failure notification, and halts the batch.  For
auto-safe tasks [t1(success), t2(failure), t3] the final record list
holds exactly t1's and t2's records in that order, only t1 and t2 were
executed (t3 never runs), and the notifications are start, failure,
end. -/
theorem batch_halts_on_failure
    (t1 t2 t3 : RTask) (euid : Nat) (exec : List String → ProcResult)
    (o1 e1 o2 e2 : String) (n : Int)
    (a1 : t1.auto_safe = true) (a2 : t2.auto_safe = true)
    (a3 : t3.auto_safe = true)
    (s1 : t1.requires_sudo = false) (s2 : t2.requires_sudo = false)
    (hx1 : exec t1.command = ProcResult.exited 0 o1 e1)
    (hx2 : exec t2.command = ProcResult.exited n o2 e2)
    (hn : n ≠ 0) :
    run_all_tasks [t1, t2, t3] euid exec =
      { results := [
          { command := t1.name, exit_mark := exitMark 0,
            output := summarize_for_task t1.name (pyStrip o1), error := "" },
          { command := t2.name, exit_mark := exitMark n,
            output := summarize_for_task t2.name (pyStrip o2),
            error := pyStrip e2 } ],
        notifications := [startNotif 3, failNotif t2.name, endNotif 2],
        executed := [t1.name, t2.name] } := by
  simp [run_all_tasks, runTasks, run_command, List.filter_cons,
    a1, a2, a3, s1, s2, hx1, hx2, hn, exitMark]

/-- Witness for C1: the scenario [fixUpdate(success), fixFail(exit 1),
fixThird] under the concrete launch oracle. -/
theorem batch_halts_on_failure_witness :
    run_all_tasks [fixUpdate, fixFail, fixThird] 1000 fixExec =
      { results := [
          { command := fixUpdate.name, exit_mark := exitMark 0,
            output := summarize_for_task fixUpdate.name
              (pyStrip "3 packages can be upgraded."), error := "" },
          { command := fixFail.name, exit_mark := exitMark 1,
            output := summarize_for_task fixFail.name (pyStrip "boom"),
            error := pyStrip "exploded" } ],
        notifications := [startNotif 3, failNotif fixFail.name, endNotif 2],
        executed := [fixUpdate.name, fixFail.name] } :=
  batch_halts_on_failure fixUpdate fixFail fixThird 1000 fixExec
    "3 packages can be upgraded." "" "boom" "exploded" 1
    rfl rfl rfl rfl rfl rfl rfl (by decide)

/-! ## C2: sudo precondition skips without halting -/

/-- C2: a task whose `requires_sudo` precondition fails under a
non-root euid is skipped — no result record, no execution, no failure
notification — and the batch continues: with [t1(requires_sudo),
t2(success)] run unelevated, only t2 executes and only t2's record is
appended. -/
theorem sudo_skip_continues
    (t1 t2 : RTask) (euid : Nat) (exec : List String → ProcResult)
    (o e : String)
    (a1 : t1.auto_safe = true) (s1 : t1.requires_sudo = true)
    (hu : euid ≠ 0)
    (a2 : t2.auto_safe = true) (s2 : t2.requires_sudo = false)
    (hx : exec t2.command = ProcResult.exited 0 o e) :
    run_all_tasks [t1, t2] euid exec =
      { results := [
          { command := t2.name, exit_mark := exitMark 0,
            output := summarize_for_task t2.name (pyStrip o),
            error := "" } ],
        notifications := [startNotif 2, endNotif 1],
        executed := [t2.name] } := by
  simp [run_all_tasks, runTasks, run_command, List.filter_cons,
    a1, a2, s1, s2, hx, hu, exitMark]

/-- Witness for C2: [fixSudo, fixUpdate] run with euid 1000. -/
theorem sudo_skip_continues_witness :
    run_all_tasks [fixSudo, fixUpdate] 1000 fixExec =
      { results := [
          { command := fixUpdate.name, exit_mark := exitMark 0,
            output := summarize_for_task fixUpdate.name
              (pyStrip "3 packages can be upgraded."), error := "" } ],
        notifications := [startNotif 2, endNotif 1],
        executed := [fixUpdate.name] } :=
  sudo_skip_continues fixSudo fixUpdate 1000 fixExec
    "3 packages can be upgraded." "" rfl rfl (by decide) rfl rfl rfl

/-! ## C5: start/end notifications (corrected) -/

/-- C5 counterexample: a batch run over an empty catalog returns at the
"No tasks loaded!" guard before notifying, so it emits no start
notification at all — not exactly one as the claim states for this
case. -/
theorem empty_batch_emits_no_notifications :
    (run_all_tasks [] 0 (fun _ => ProcResult.exited 0 "" "")).notifications
      = [] ∧
    (run_all_tasks [] 0
        (fun _ => ProcResult.exited 0 "" "")).notifications.countP
      (fun nt => nt.title == "Maintenance Started") ≠ 1 := by
  constructor
  · rfl
  · decide

/-- Every notification the batch loop itself sends is a failure
notification. -/
theorem runTasks_notif_titles (euid : Nat) (exec : List String → ProcResult)
    (ts : List RTask) :
    ∀ nt ∈ (runTasks euid exec ts).2.1, nt.title = "Maintenance Error" := by
  induction ts with
  | nil =>
    intro nt h
    simp [runTasks] at h
  | cons t rest ih =>
    intro nt h
    simp only [runTasks] at h
    split at h
    · exact ih nt h
    · split at h
      · exact ih nt h
      · simp only [List.mem_singleton] at h
        rw [h]
        rfl

/-- C5 amended: a batch run whose auto-safe subset is non-empty emits
exactly one start and one end notification, however many tasks execute
and also when a failure halts the batch early; a run whose catalog or
auto-safe subset is empty returns before notifying and emits none. -/
theorem batch_notifies_start_end_once
    (all_tasks : List RTask) (euid : Nat) (exec : List String → ProcResult)
    (h : all_tasks.filter (fun t => t.auto_safe) ≠ []) :
    (run_all_tasks all_tasks euid exec).notifications.countP
        (fun nt => nt.title == "Maintenance Started") = 1 ∧
    (run_all_tasks all_tasks euid exec).notifications.countP
        (fun nt => nt.title == "Maintenance Complete") = 1 := by
  have hne : all_tasks.isEmpty = false := by
    cases all_tasks with
    | nil => simp at h
    | cons a l => rfl
  have hfe : (all_tasks.filter (fun t => t.auto_safe)).isEmpty = false := by
    cases hf : all_tasks.filter (fun t => t.auto_safe) with
    | nil => exact absurd hf h
    | cons a l => rfl
  have hnotes := runTasks_notif_titles euid exec
    (all_tasks.filter (fun t => t.auto_safe))
  have hzero1 : ((runTasks euid exec
      (all_tasks.filter (fun t => t.auto_safe))).2.1).countP
      (fun nt => nt.title == "Maintenance Started") = 0 := by
    rw [List.countP_eq_zero]
    intro nt hmem
    rw [hnotes nt hmem]
    decide
  have hzero2 : ((runTasks euid exec
      (all_tasks.filter (fun t => t.auto_safe))).2.1).countP
      (fun nt => nt.title == "Maintenance Complete") = 0 := by
    rw [List.countP_eq_zero]
    intro nt hmem
    rw [hnotes nt hmem]
    decide
  simp only [run_all_tasks, hne, hfe, Bool.false_eq_true, if_false]
  constructor
  · simp [List.countP_cons, List.countP_append, startNotif, endNotif, hzero1]
  · simp [List.countP_cons, List.countP_append, startNotif, endNotif, hzero2]

/-- Witness for C5's amended claim: one task, auto-safe subset
non-empty. -/
theorem batch_notifies_start_end_once_witness :
    (run_all_tasks [fixUpdate] 0 fixExec).notifications.countP
        (fun nt => nt.title == "Maintenance Started") = 1 ∧
    (run_all_tasks [fixUpdate] 0 fixExec).notifications.countP
        (fun nt => nt.title == "Maintenance Complete") = 1 :=
  batch_notifies_start_end_once [fixUpdate] 0 fixExec (by decide)
